import Mathlib

/-!
# Verification of the CloudFire VPN data-plane state machines

A shallow embedding, in Lean 4, of the sans-IO state machines of the
CloudFire (Firezone) repository: the TURN relay server
(src/rust/relay/src/server.rs and server/client_message.rs), the client
policy engine (src/rust/connlib/tunnel/src/client.rs) and the gateway
enforcement engine (src/rust/connlib/tunnel/src/gateway.rs).

Modelling conventions:
* Machine integers become Nat; IPv4/IPv6 addresses are Nat bit patterns
  tagged by family.
* Instants and durations are Nat (seconds on the relay, milliseconds on
  client and gateway, matching the granularity each component uses).
* Hash maps become association lists with a key-replacing insert.
* Randomness (the relay's port draw) is an oracle input.
* Components whose sources are absent from the repository snapshot
  (the stun-codec attribute decoder, the tunnel's peer store, the peer
  transforms, the relay auth module and the three-variant dns parser
  called by client.rs) are modelled from the specification; each such
  definition carries a doc comment saying so.
-/

namespace CloudFire

/-- An IP address: a family tag plus the address bits (32 for v4, 128 for v6). -/
inductive IpAddr where
  | v4 (bits : Nat)
  | v6 (bits : Nat)
deriving DecidableEq

def IpAddr.isV4 : IpAddr → Bool
  | .v4 _ => true
  | .v6 _ => false

/-- A CIDR network: family, network address bits, prefix length. -/
structure IpNetwork where
  isV4 : Bool
  addr : Nat
  prefixLen : Nat
deriving DecidableEq

/-- Membership of an address in a CIDR network (family must match and the
top prefixLen bits must agree). -/
def IpNetwork.containsAddr (n : IpNetwork) (ip : IpAddr) : Bool :=
  match ip with
  | .v4 b => n.isV4 && decide (b / 2 ^ (32 - n.prefixLen) = n.addr / 2 ^ (32 - n.prefixLen))
  | .v6 b => !n.isV4 && decide (b / 2 ^ (128 - n.prefixLen) = n.addr / 2 ^ (128 - n.prefixLen))

/-- First-match lookup in an association list (HashMap get). -/
def lookupKey {k v : Type} [DecidableEq k] : List (k × v) → k → Option v
  | [], _ => none
  | (a, b) :: rest, key => if a = key then some b else lookupKey rest key

/-- Remove every entry with the given key (HashMap remove). -/
def eraseKey {k v : Type} [DecidableEq k] : List (k × v) → k → List (k × v)
  | [], _ => []
  | (a, b) :: rest, key =>
      if a = key then eraseKey rest key else (a, b) :: eraseKey rest key

/-- Key-replacing insert (HashMap insert). -/
def insertKey {k v : Type} [DecidableEq k] (l : List (k × v)) (key : k) (val : v) :
    List (k × v) :=
  (key, val) :: eraseKey l key

theorem mem_eraseKey {k v : Type} [DecidableEq k] {l : List (k × v)} {key : k}
    {x : k × v} (h : x ∈ eraseKey l key) : x ∈ l := by
  induction l with
  | nil => simp [eraseKey] at h
  | cons hd tl ih =>
      unfold eraseKey at h
      by_cases hk : hd.1 = key
      · simp only [hk, if_pos rfl] at h
        exact List.mem_cons_of_mem hd (ih h)
      · rw [if_neg hk] at h
        rcases List.mem_cons.mp h with h1 | h2
        · exact h1 ▸ List.mem_cons_self hd tl
        · exact List.mem_cons_of_mem hd (ih h2)

theorem lookupKey_mem {k v : Type} [DecidableEq k] {l : List (k × v)} {key : k}
    {val : v} (h : lookupKey l key = some val) : (key, val) ∈ l := by
  induction l with
  | nil => simp [lookupKey] at h
  | cons hd tl ih =>
      unfold lookupKey at h
      by_cases hk : hd.1 = key
      · rw [if_pos hk] at h
        obtain ⟨a, b⟩ := hd
        cases h
        cases hk
        exact List.mem_cons_self _ tl
      · rw [if_neg hk] at h
        exact List.mem_cons_of_mem hd (ih h)

theorem lookupKey_insertKey_self {k v : Type} [DecidableEq k] (l : List (k × v))
    (key : k) (val : v) : lookupKey (insertKey l key val) key = some val := by
  simp [insertKey, lookupKey]

theorem mem_insertKey {k v : Type} [DecidableEq k] {l : List (k × v)} {key : k}
    {val : v} {x : k × v} (h : x ∈ insertKey l key val) :
    x = (key, val) ∨ x ∈ l := by
  rcases List.mem_cons.mp h with h1 | h2
  · exact Or.inl h1
  · exact Or.inr (mem_eraseKey h2)

/-! ## The TURN relay server

Embedding of src/rust/relay/src/server.rs and server/client_message.rs.
Times are in seconds. Metrics counters, pending SendMessage command
encoding and the nonce table are not modelled; the outcome of
verify_auth is carried as a boolean on each request (the auth module is
not part of the repository snapshot). -/

namespace Relay

abbrev ClientSocket := Nat
abbrev PeerSocket := IpAddr
abbrev AllocationPort := Nat
abbrev ErrCode := Nat

def unauthorized : ErrCode := 401
def badRequest : ErrCode := 400
def allocationMismatch : ErrCode := 437
def addressFamilyNotSupported : ErrCode := 440
def peerAddressFamilyMismatch : ErrCode := 443
def insufficientCapacity : ErrCode := 508

/-- CHANNEL_BINDING_DURATION: 600 s. -/
def channelBindingDuration : Nat := 600

/-- CHANNEL_REBIND_TIMEOUT: 300 s. -/
def channelRebindTimeout : Nat := 300

/-- MAX_ALLOCATION_LIFETIME: 3600 s. -/
def maxAllocationLifetime : Nat := 3600

/-- DEFAULT_ALLOCATION_LIFETIME: 600 s. -/
def defaultAllocationLifetime : Nat := 600

/-- UDP_TRANSPORT: protocol number 17. -/
def udpTransport : Nat := 17

inductive AddressFamily where
  | v4
  | v6
deriving DecidableEq

/-- The relay's public address stack (IpStack). -/
inductive IpStack where
  | ip4 (a : IpAddr)
  | ip6 (a : IpAddr)
  | dual (a b : IpAddr)
deriving DecidableEq

structure Allocation where
  port : AllocationPort
  expiresAt : Nat
  firstRelayAddr : IpAddr
  secondRelayAddr : Option IpAddr
deriving DecidableEq

/-- Allocation::can_relay_to. -/
def Allocation.canRelayTo (a : Allocation) (addr : PeerSocket) : Bool :=
  match addr with
  | .v4 _ => a.firstRelayAddr.isV4
  | .v6 _ =>
      !a.firstRelayAddr.isV4 ||
        (match a.secondRelayAddr with
          | some b => !b.isV4
          | none => false)

/-- Allocation::is_expired. -/
def Allocation.isExpired (a : Allocation) (now : Nat) : Bool :=
  a.expiresAt ≤ now

structure Channel where
  expiry : Nat
  peerAddress : PeerSocket
  allocation : AllocationPort
  bound : Bool
deriving DecidableEq

/-- Channel::is_expired. -/
def Channel.isExpired (c : Channel) (now : Nat) : Bool :=
  c.expiry ≤ now

/-- Channel::can_be_deleted. -/
def Channel.canBeDeleted (c : Channel) (now : Nat) : Bool :=
  c.expiry + channelRebindTimeout ≤ now

/-- The Server state (the fields that carry protocol state; counters,
codec and rng are external or oracle-supplied). -/
structure Server where
  publicAddress : IpStack
  allocations : List (ClientSocket × Allocation)
  clientsByAllocation : List (AllocationPort × ClientSocket)
  channelsByClientAndNumber : List ((ClientSocket × Nat) × Channel)
  channelNumbersByClientAndPeer : List ((ClientSocket × PeerSocket) × Nat)
  channelAndClientByPortAndPeer : List ((AllocationPort × PeerSocket) × (ClientSocket × Nat))
  lowestPort : Nat
  highestPort : Nat
deriving DecidableEq

def Server.empty (publicAddress : IpStack) (lowestPort highestPort : Nat) : Server :=
  { publicAddress := publicAddress
    allocations := []
    clientsByAllocation := []
    channelsByClientAndNumber := []
    channelNumbersByClientAndPeer := []
    channelAndClientByPortAndPeer := []
    lowestPort := lowestPort
    highestPort := highestPort }

/-- An Allocate request after decoding.  authOk summarises verify_auth
(the auth module is not in the repository snapshot); freshPort is the
oracle for the random port draw. -/
structure AllocateReq where
  authOk : Bool
  requestedTransport : Nat
  lifetime : Option Nat
  requestedAddressFamily : Option AddressFamily
  additionalAddressFamily : Option AddressFamily
  freshPort : AllocationPort
deriving DecidableEq

structure RefreshReq where
  authOk : Bool
  lifetime : Option Nat
deriving DecidableEq

/-- A ChannelBind request before channel-number validation. -/
structure ChannelBindRaw where
  authOk : Bool
  channelNumber : Nat
  xorPeerAddress : PeerSocket
deriving DecidableEq

/-- compute_effective_lifetime (client_message.rs): default 600 s when
no LIFETIME attribute, otherwise the requested value capped at 3600 s. -/
def computeEffectiveLifetime : Option Nat → Nat
  | none => defaultAllocationLifetime
  | some requested => min requested maxAllocationLifetime

/-- Allocate::effective_lifetime. -/
def AllocateReq.effectiveLifetime (r : AllocateReq) : Nat :=
  computeEffectiveLifetime r.lifetime

/-- Refresh::effective_lifetime. -/
def RefreshReq.effectiveLifetime (r : RefreshReq) : Nat :=
  computeEffectiveLifetime r.lifetime

/-- Modelled from the spec: the stun-codec CHANNEL-NUMBER attribute
decoder is not part of the repository snapshot; server.rs relies on it
with the comment that the channel number is enforced to be in the
correct range, and the spec fixes that range as 0x4000 through 0x4FFF
(consistently with the ChannelData first-byte demultiplexing range
0x40..=0x4F in client_message.rs).  Decoding fails outside the range. -/
def parseChannelNumber (n : Nat) : Option Nat :=
  if 0x4000 ≤ n ∧ n ≤ 0x4FFF then some n else none

/-- derive_relay_addresses (server.rs); arms in source order. -/
def deriveRelayAddresses (publicAddress : IpStack)
    (requested : Option AddressFamily) (additional : Option AddressFamily) :
    Except ErrCode (IpAddr × Option IpAddr) :=
  match publicAddress, requested, additional with
  | .ip4 a, none, none => .ok (a, none)
  | .ip4 a, some .v4, none => .ok (a, none)
  | .dual a _, none, none => .ok (a, none)
  | .dual a _, some .v4, none => .ok (a, none)
  | .ip6 a, some .v6, none => .ok (a, none)
  | .dual _ b, some .v6, none => .ok (b, none)
  | .dual a b, none, some .v6 => .ok (a, some b)
  | .ip4 a, none, some .v6 => .ok (a, none)
  | .ip6 a, none, some .v6 => .ok (a, none)
  | _, some _, some _ => .error badRequest
  | _, _, some .v4 => .error badRequest
  | .ip6 _, none, none => .error addressFamilyNotSupported
  | .ip6 _, some .v4, none => .error addressFamilyNotSupported
  | .ip4 _, some .v6, none => .error addressFamilyNotSupported

def Server.maxAvailablePorts (s : Server) : Nat :=
  s.highestPort - s.lowestPort

/-- Server::delete_allocation (FreeAllocation commands not modelled). -/
def Server.deleteAllocation (s : Server) (port : AllocationPort) : Server :=
  match lookupKey s.clientsByAllocation port with
  | none => s
  | some client =>
      { s with
        clientsByAllocation := eraseKey s.clientsByAllocation port
        allocations := eraseKey s.allocations client }

/-- Server::handle_allocate_request.  Checks in source order:
authentication, existing allocation, capacity, transport, address
derivation; then the allocation is created with the effective lifetime. -/
def Server.handleAllocate (s : Server) (req : AllocateReq) (sender : ClientSocket)
    (now : Nat) : Server × Except ErrCode Unit :=
  if !req.authOk then (s, .error unauthorized)
  else if (lookupKey s.allocations sender).isSome then (s, .error allocationMismatch)
  else if s.clientsByAllocation.length = s.maxAvailablePorts then
    (s, .error insufficientCapacity)
  else if req.requestedTransport ≠ udpTransport then (s, .error badRequest)
  else
    match deriveRelayAddresses s.publicAddress req.requestedAddressFamily
        req.additionalAddressFamily with
    | .error e => (s, .error e)
    | .ok (firstRelayAddr, maybeSecond) =>
        let alloc : Allocation :=
          { port := req.freshPort
            expiresAt := now + req.effectiveLifetime
            firstRelayAddr := firstRelayAddr
            secondRelayAddr := maybeSecond }
        ({ s with
            clientsByAllocation := insertKey s.clientsByAllocation alloc.port sender
            allocations := insertKey s.allocations sender alloc },
          .ok ())

/-- Server::handle_refresh_request. -/
def Server.handleRefresh (s : Server) (req : RefreshReq) (sender : ClientSocket)
    (now : Nat) : Server × Except ErrCode Unit :=
  if !req.authOk then (s, .error unauthorized)
  else
    match lookupKey s.allocations sender with
    | none => (s, .error allocationMismatch)
    | some alloc =>
        if req.effectiveLifetime = 0 then (s.deleteAllocation alloc.port, .ok ())
        else
          ({ s with
              allocations := insertKey s.allocations sender
                { alloc with expiresAt := now + req.effectiveLifetime } },
            .ok ())

/-- Server::create_channel_binding. -/
def Server.createChannelBinding (s : Server) (client : ClientSocket)
    (requestedChannel : Nat) (peer : PeerSocket) (id : AllocationPort)
    (now : Nat) : Server :=
  { s with
    channelsByClientAndNumber :=
      insertKey s.channelsByClientAndNumber (client, requestedChannel)
        { expiry := now + channelBindingDuration
          peerAddress := peer
          allocation := id
          bound := true }
    channelNumbersByClientAndPeer :=
      insertKey s.channelNumbersByClientAndPeer (client, peer) requestedChannel
    channelAndClientByPortAndPeer :=
      insertKey s.channelAndClientByPortAndPeer (id, peer) (client, requestedChannel) }

/-- Server::handle_channel_bind_request, preceded by the decode stage
(ChannelBind::parse with the channel-number attribute validation). -/
def Server.handleChannelBind (s : Server) (req : ChannelBindRaw)
    (sender : ClientSocket) (now : Nat) : Server × Except ErrCode Unit :=
  match parseChannelNumber req.channelNumber with
  | none => (s, .error badRequest)
  | some requestedChannel =>
      if !req.authOk then (s, .error unauthorized)
      else
        match lookupKey s.allocations sender with
        | none => (s, .error allocationMismatch)
        | some alloc =>
            let peer := req.xorPeerAddress
            if !alloc.canRelayTo peer then (s, .error peerAddressFamilyMismatch)
            else if (match lookupKey s.channelNumbersByClientAndPeer (sender, peer) with
                | some number => decide (number ≠ requestedChannel)
                | none => false) then (s, .error badRequest)
            else
              match lookupKey s.channelsByClientAndNumber (sender, requestedChannel) with
              | some ch =>
                  if ch.peerAddress ≠ peer then (s, .error badRequest)
                  else
                    ({ s with
                        channelsByClientAndNumber :=
                          insertKey s.channelsByClientAndNumber
                            (sender, requestedChannel)
                            { ch with expiry := now + channelBindingDuration } },
                      .ok ())
              | none =>
                  (s.createChannelBinding sender requestedChannel peer alloc.port now,
                    .ok ())

/-- Server::handle_channel_data_message: forward only on an existing,
bound channel (relayed-bytes counters not modelled). -/
def Server.handleChannelData (s : Server) (sender : ClientSocket)
    (channelNumber : Nat) : Option (AllocationPort × PeerSocket) :=
  match lookupKey s.channelsByClientAndNumber (sender, channelNumber) with
  | none => none
  | some channel =>
      if channel.bound then some (channel.allocation, channel.peerAddress) else none

/-- Server::delete_channel_binding. -/
def Server.deleteChannelBinding (s : Server) (key : ClientSocket × Nat) : Server :=
  match lookupKey s.channelsByClientAndNumber key with
  | none => s
  | some channel =>
      { s with
        channelNumbersByClientAndPeer :=
          eraseKey s.channelNumbersByClientAndPeer (key.1, channel.peerAddress)
        channelsByClientAndNumber := eraseKey s.channelsByClientAndNumber key }

/-- First phase of Server::handle_timeout: delete expired allocations. -/
def Server.expireAllocations (s : Server) (now : Nat) : Server :=
  (s.allocations.filterMap fun (p : ClientSocket × Allocation) =>
      if p.2.isExpired now then some p.2.port else none).foldl
    Server.deleteAllocation s

/-- Second phase of Server::handle_timeout: mark expired bound channels
as unbound and drop their peer-to-client forwarding entries. -/
def Server.unbindExpiredChannels (s : Server) (now : Nat) : Server :=
  { s with
    channelsByClientAndNumber :=
      s.channelsByClientAndNumber.map fun (p : (ClientSocket × Nat) × Channel) =>
        if p.2.isExpired now && p.2.bound then (p.1, { p.2 with bound := false })
        else p
    channelAndClientByPortAndPeer :=
      (s.channelsByClientAndNumber.filterMap
          fun (p : (ClientSocket × Nat) × Channel) =>
            if p.2.isExpired now && p.2.bound then
              some (p.2.allocation, p.2.peerAddress)
            else none).foldl
        eraseKey s.channelAndClientByPortAndPeer }

/-- Third phase of Server::handle_timeout: delete channels whose rebind
cool-down has elapsed. -/
def Server.deleteDeletableChannels (s : Server) (now : Nat) : Server :=
  (s.channelsByClientAndNumber.filterMap
      fun (p : (ClientSocket × Nat) × Channel) =>
        if p.2.canBeDeleted now then some p.1 else none).foldl
    Server.deleteChannelBinding s

/-- Server::handle_timeout: delete expired allocations, unbind expired
bound channels (dropping their forwarding entries), and delete channels
past the rebind cool-down. -/
def Server.handleTimeout (s : Server) (now : Nat) : Server :=
  ((s.expireAllocations now).unbindExpiredChannels now).deleteDeletableChannels now

/-- The decoded client messages the server dispatches on
(handle_client_message). -/
inductive ClientMessage where
  | allocate (req : AllocateReq)
  | refresh (req : RefreshReq)
  | channelBind (req : ChannelBindRaw)
  | createPermission (authOk : Bool)
  | binding
  | channelData (channelNumber : Nat)
deriving DecidableEq

/-- Server::handle_client_message.  ChannelData and Binding do not
change the modelled state; CreatePermission only authenticates. -/
def Server.handleClientMessage (s : Server) (m : ClientMessage)
    (sender : ClientSocket) (now : Nat) : Server × Except ErrCode Unit :=
  match m with
  | .allocate req => s.handleAllocate req sender now
  | .refresh req => s.handleRefresh req sender now
  | .channelBind req => s.handleChannelBind req sender now
  | .createPermission authOk =>
      if authOk then (s, .ok ()) else (s, .error unauthorized)
  | .binding => (s, .ok ())
  | .channelData _ => (s, .ok ())

def resultOk {e a : Type} : Except e a → Bool
  | .ok _ => true
  | .error _ => false

/-- States reachable by driving the relay server.  The sans-IO driver of
server.rs invokes handle_timeout no later than each poll_timeout
deadline; since handle_timeout is monotone in time, this discipline is
embedded by processing due timeouts at the instant of every input
(handle_peer_traffic does not mutate the modelled state and is subsumed
by the timeout step). -/
inductive Reachable : Server → Nat → Prop where
  | init (publicAddress : IpStack) (lowestPort highestPort t : Nat) :
      Reachable (Server.empty publicAddress lowestPort highestPort) t
  | timeout {s : Server} {t : Nat} (t' : Nat) (h : Reachable s t) (hle : t ≤ t') :
      Reachable (s.handleTimeout t') t'
  | clientInput {s : Server} {t : Nat} (m : ClientMessage) (sender : ClientSocket)
      (t' : Nat) (h : Reachable s t) (hle : t ≤ t') :
      Reachable ((s.handleTimeout t').handleClientMessage m sender t').1 t'

/-- The channel-table invariant: every bound channel expires strictly in
the future. -/
def channelsBoundFresh (s : Server) (t : Nat) : Prop :=
  ∀ k c, (k, c) ∈ s.channelsByClientAndNumber → c.bound = true → t < c.expiry

theorem deleteAllocation_channels (s : Server) (port : AllocationPort) :
    (s.deleteAllocation port).channelsByClientAndNumber =
      s.channelsByClientAndNumber := by
  unfold Server.deleteAllocation
  cases lookupKey s.clientsByAllocation port <;> rfl

theorem foldl_deleteAllocation_channels (ports : List AllocationPort) :
    ∀ s : Server,
      (ports.foldl Server.deleteAllocation s).channelsByClientAndNumber =
        s.channelsByClientAndNumber := by
  induction ports with
  | nil => intro s; rfl
  | cons hd tl ih =>
      intro s
      rw [List.foldl_cons, ih, deleteAllocation_channels]

theorem mem_deleteChannelBinding {s : Server} {key : ClientSocket × Nat}
    {x : (ClientSocket × Nat) × Channel}
    (h : x ∈ (s.deleteChannelBinding key).channelsByClientAndNumber) :
    x ∈ s.channelsByClientAndNumber := by
  unfold Server.deleteChannelBinding at h
  rcases hl : lookupKey s.channelsByClientAndNumber key with _ | c
  · rw [hl] at h; exact h
  · rw [hl] at h
    exact mem_eraseKey h

theorem mem_foldl_deleteChannelBinding (keys : List (ClientSocket × Nat)) :
    ∀ (s : Server) (x : (ClientSocket × Nat) × Channel),
      x ∈ (keys.foldl Server.deleteChannelBinding s).channelsByClientAndNumber →
        x ∈ s.channelsByClientAndNumber := by
  induction keys with
  | nil => intro s x h; exact h
  | cons hd tl ih =>
      intro s x h
      rw [List.foldl_cons] at h
      exact mem_deleteChannelBinding (ih _ _ h)

theorem handleTimeout_boundFresh (s : Server) (now : Nat) :
    channelsBoundFresh (s.handleTimeout now) now := by
  intro k c hmem hbound
  unfold Server.handleTimeout at hmem
  have hmem2 := mem_foldl_deleteChannelBinding _ _ _ hmem
  unfold Server.unbindExpiredChannels at hmem2
  simp only [List.mem_map] at hmem2
  obtain ⟨p, _, hp⟩ := hmem2
  by_cases hcond : (p.2.isExpired now && p.2.bound) = true
  · rw [if_pos hcond] at hp
    have hc : c = { p.2 with bound := false } := (congrArg Prod.snd hp).symm
    rw [hc] at hbound
    simp at hbound
  · rw [if_neg hcond] at hp
    have hc : c = p.2 := (congrArg Prod.snd hp).symm
    rw [hc] at hbound ⊢
    simp only [Bool.and_eq_true, not_and] at hcond
    have hnotle : ¬ p.2.expiry ≤ now := by
      intro hle
      exact absurd hbound (by simp [hcond (by simp [Channel.isExpired, hle])])
    exact Nat.lt_of_not_le hnotle

theorem handleAllocate_channels (s : Server) (req : AllocateReq)
    (sender : ClientSocket) (now : Nat) :
    (s.handleAllocate req sender now).1.channelsByClientAndNumber =
      s.channelsByClientAndNumber := by
  unfold Server.handleAllocate
  repeat' split <;> try rfl

theorem handleRefresh_channels (s : Server) (req : RefreshReq)
    (sender : ClientSocket) (now : Nat) :
    (s.handleRefresh req sender now).1.channelsByClientAndNumber =
      s.channelsByClientAndNumber := by
  unfold Server.handleRefresh
  by_cases hauth : (!req.authOk) = true
  · rw [if_pos hauth]
  · rw [if_neg hauth]
    rcases lookupKey s.allocations sender with _ | alloc
    · rfl
    · simp only
      by_cases hz : req.effectiveLifetime = 0
      · rw [if_pos hz]
        exact deleteAllocation_channels s alloc.port
      · rw [if_neg hz]

theorem handleChannelBind_boundFresh {s : Server} {now : Nat}
    (req : ChannelBindRaw) (sender : ClientSocket)
    (inv : channelsBoundFresh s now) :
    channelsBoundFresh (s.handleChannelBind req sender now).1 now := by
  intro k c hmem hbound
  unfold Server.handleChannelBind at hmem
  rcases hparse : parseChannelNumber req.channelNumber with _ | requestedChannel
  · simp only [hparse] at hmem
    exact inv k c hmem hbound
  · simp only [hparse] at hmem
    by_cases hauth : (!req.authOk) = true
    · simp only [if_pos hauth] at hmem
      exact inv k c hmem hbound
    · simp only [if_neg hauth] at hmem
      rcases halloc : lookupKey s.allocations sender with _ | alloc
      · simp only [halloc] at hmem
        exact inv k c hmem hbound
      · simp only [halloc] at hmem
        by_cases hrelay : (!alloc.canRelayTo req.xorPeerAddress) = true
        · simp only [if_pos hrelay] at hmem
          exact inv k c hmem hbound
        · simp only [if_neg hrelay] at hmem
          by_cases hconf : (match lookupKey s.channelNumbersByClientAndPeer
              (sender, req.xorPeerAddress) with
              | some number => decide (number ≠ requestedChannel)
              | none => false) = true
          · simp only [if_pos hconf] at hmem
            exact inv k c hmem hbound
          · simp only [if_neg hconf] at hmem
            rcases hchan : lookupKey s.channelsByClientAndNumber
                (sender, requestedChannel) with _ | ch
            · simp only [hchan] at hmem
              unfold Server.createChannelBinding at hmem
              simp only at hmem
              rcases mem_insertKey hmem with heq | hold
              · have hc : c = { expiry := now + channelBindingDuration
                                peerAddress := req.xorPeerAddress
                                allocation := alloc.port
                                bound := true } :=
                  congrArg Prod.snd heq
                rw [hc]
                simp [channelBindingDuration]
              · exact inv k c hold hbound
            · simp only [hchan] at hmem
              by_cases hpeer : (ch.peerAddress ≠ req.xorPeerAddress)
              · simp only [if_pos hpeer] at hmem
                exact inv k c hmem hbound
              · simp only [if_neg hpeer] at hmem
                rcases mem_insertKey hmem with heq | hold
                · have hc : c = { ch with expiry := now + channelBindingDuration } :=
                    congrArg Prod.snd heq
                  rw [hc]
                  simp [channelBindingDuration]
                · exact inv k c hold hbound

theorem handleClientMessage_boundFresh {s : Server} {now : Nat}
    (m : ClientMessage) (sender : ClientSocket)
    (inv : channelsBoundFresh s now) :
    channelsBoundFresh (s.handleClientMessage m sender now).1 now := by
  cases m with
  | allocate req =>
      intro k c hmem hbound
      rw [Server.handleClientMessage, handleAllocate_channels] at hmem
      exact inv k c hmem hbound
  | refresh req =>
      intro k c hmem hbound
      rw [Server.handleClientMessage, handleRefresh_channels] at hmem
      exact inv k c hmem hbound
  | channelBind req => exact handleChannelBind_boundFresh req sender inv
  | createPermission authOk =>
      intro k c hmem hbound
      unfold Server.handleClientMessage at hmem
      by_cases h : authOk = true <;> simp [h] at hmem <;> exact inv k c hmem hbound
  | binding => exact inv
  | channelData n => exact inv

theorem reachable_boundFresh {s : Server} {t : Nat} (h : Reachable s t) :
    channelsBoundFresh s t := by
  induction h with
  | init publicAddress lowestPort highestPort t =>
      intro k c hmem _
      simp [Server.empty] at hmem
  | timeout t' h hle ih => exact handleTimeout_boundFresh _ t'
  | clientInput m sender t' h hle ih =>
      exact handleClientMessage_boundFresh m _ (handleTimeout_boundFresh _ t')

/-- C2: with every other precondition of a ChannelBind request satisfied
(authenticated, an allocation exists for the sender, the allocation can
relay to the peer, and no conflicting binding exists), the request is
accepted exactly when its channel number lies in the range 0x4000
through 0x4FFF; in particular 0x3FFF and 0x5000 are rejected while
0x4000 and 0x4FFF are accepted. -/
theorem relay_channel_bind_range (s : Server) (sender : ClientSocket)
    (peer : PeerSocket) (n now : Nat) (alloc : Allocation)
    (halloc : lookupKey s.allocations sender = some alloc)
    (hrelay : alloc.canRelayTo peer = true)
    (hpeerMap : lookupKey s.channelNumbersByClientAndPeer (sender, peer) = none)
    (hchanMap : lookupKey s.channelsByClientAndNumber (sender, n) = none) :
    resultOk (s.handleChannelBind
        { authOk := true, channelNumber := n, xorPeerAddress := peer }
        sender now).2 = true
      ↔ (0x4000 ≤ n ∧ n ≤ 0x4FFF) := by
  unfold Server.handleChannelBind parseChannelNumber
  by_cases hin : 0x4000 ≤ n ∧ n ≤ 0x4FFF
  · rw [if_pos hin]
    simp only [halloc, hrelay, hpeerMap, hchanMap, Bool.not_true,
      Bool.false_eq_true, if_false, resultOk]
    simpa using hin
  · rw [if_neg hin]
    simp only [resultOk]
    simpa using hin

def exBindServer : Server :=
  { Server.empty (.ip4 (.v4 0x01010101)) 49152 65535 with
    allocations :=
      [(2, { port := 50000, expiresAt := 600,
             firstRelayAddr := .v4 0x01010101, secondRelayAddr := none })]
    clientsByAllocation := [(50000, 2)] }

/-- Witness for C2: a concrete server accepts channel number 0x4000. -/
theorem relay_channel_bind_range_witness :
    resultOk (exBindServer.handleChannelBind
        { authOk := true, channelNumber := 0x4000, xorPeerAddress := .v4 0x0A000001 }
        2 0).2 = true :=
  (relay_channel_bind_range exBindServer 2 (.v4 0x0A000001) 0x4000 0
      { port := 50000, expiresAt := 600,
        firstRelayAddr := .v4 0x01010101, secondRelayAddr := none }
      rfl rfl rfl rfl).mpr (by decide)

/-- C3: for every Allocate and Refresh request the effective lifetime is
600 s when no LIFETIME attribute is present, and min(requested, 3600 s)
otherwise; a requested lifetime of 10,000,000 s becomes 3600 s. -/
theorem relay_effective_lifetime (a : AllocateReq) (r : RefreshReq) :
    a.effectiveLifetime = (match a.lifetime with
      | none => 600
      | some l => min l 3600) ∧
    r.effectiveLifetime = (match r.lifetime with
      | none => 600
      | some l => min l 3600) ∧
    computeEffectiveLifetime (some 10000000) = 3600 := by
  refine ⟨?_, ?_, by decide⟩
  · cases h : a.lifetime <;>
      simp [AllocateReq.effectiveLifetime, computeEffectiveLifetime, h,
        defaultAllocationLifetime, maxAllocationLifetime]
  · cases h : r.lifetime <;>
      simp [RefreshReq.effectiveLifetime, computeEffectiveLifetime, h,
        defaultAllocationLifetime, maxAllocationLifetime]

/-- C4: an authenticated Allocate request from a client socket that
already has an allocation yields error 437 Allocation Mismatch and
leaves the server state (in particular the existing allocation)
entirely unchanged. -/
theorem relay_allocate_mismatch (s : Server) (req : AllocateReq)
    (sender : ClientSocket) (now : Nat) (alloc : Allocation)
    (hauth : req.authOk = true)
    (halloc : lookupKey s.allocations sender = some alloc) :
    s.handleAllocate req sender now = (s, .error allocationMismatch) := by
  unfold Server.handleAllocate
  rw [hauth]
  simp [halloc]

def exMismatchServer : Server :=
  { Server.empty (.ip4 (.v4 0x01010101)) 49152 65535 with
    allocations :=
      [(7, { port := 51000, expiresAt := 600,
             firstRelayAddr := .v4 0x01010101, secondRelayAddr := none })]
    clientsByAllocation := [(51000, 7)] }

/-- Witness for C4: a concrete second Allocate gets 437 and changes
nothing. -/
theorem relay_allocate_mismatch_witness :
    exMismatchServer.handleAllocate
        { authOk := true, requestedTransport := 17, lifetime := none,
          requestedAddressFamily := none, additionalAddressFamily := none,
          freshPort := 51001 }
        7 0 = (exMismatchServer, .error allocationMismatch) :=
  relay_allocate_mismatch exMismatchServer
    { authOk := true, requestedTransport := 17, lifetime := none,
      requestedAddressFamily := none, additionalAddressFamily := none,
      freshPort := 51001 }
    7 0
    { port := 51000, expiresAt := 600,
      firstRelayAddr := .v4 0x01010101, secondRelayAddr := none }
    rfl rfl

/-- C5: in every reachable relay state (with timeouts processed no later
than their deadlines), every channel that is still bound expires
strictly in the future, and ChannelData on a channel whose expiry has
passed (and has been processed) is dropped rather than relayed. -/
theorem relay_bound_channels_unexpired (s : Server) (t : Nat)
    (h : Reachable s t) :
    ∀ cl n c, lookupKey s.channelsByClientAndNumber (cl, n) = some c →
      (c.bound = true → t < c.expiry) ∧
      (c.expiry ≤ t → s.handleChannelData cl n = none) := by
  intro cl n c hlook
  have hmem := lookupKey_mem hlook
  have inv := reachable_boundFresh h
  refine ⟨fun hb => inv _ _ hmem hb, fun hexp => ?_⟩
  unfold Server.handleChannelData
  rw [hlook]
  rcases hb : c.bound with _ | _
  · simp [hb]
  · exact absurd hexp (Nat.not_le_of_lt (inv _ _ hmem hb))

def exRelayTrace0 : Server := Server.empty (.ip4 (.v4 0x01010101)) 49152 65535

def exRelayTrace1 : Server :=
  ((exRelayTrace0.handleTimeout 0).handleClientMessage
    (.allocate { authOk := true, requestedTransport := 17, lifetime := none,
                 requestedAddressFamily := none, additionalAddressFamily := none,
                 freshPort := 50000 })
    1 0).1

def exRelayTrace2 : Server :=
  ((exRelayTrace1.handleTimeout 0).handleClientMessage
    (.channelBind { authOk := true, channelNumber := 0x4000,
                    xorPeerAddress := .v4 0x0A000001 })
    1 0).1

/-- Witness for C5: a concrete reachable state with one freshly bound
channel satisfies the invariant. -/
theorem relay_bound_channels_unexpired_witness :
    (({ expiry := 600, peerAddress := IpAddr.v4 0x0A000001, allocation := 50000,
        bound := true } : Channel).bound = true → 0 < 600) ∧
    (({ expiry := 600, peerAddress := IpAddr.v4 0x0A000001, allocation := 50000,
        bound := true } : Channel).expiry ≤ 0 →
      exRelayTrace2.handleChannelData 1 0x4000 = none) := by
  have hreach : Reachable exRelayTrace2 0 :=
    Reachable.clientInput
      (.channelBind { authOk := true, channelNumber := 0x4000,
                      xorPeerAddress := .v4 0x0A000001 })
      1 0
      (Reachable.clientInput
        (.allocate { authOk := true, requestedTransport := 17, lifetime := none,
                     requestedAddressFamily := none,
                     additionalAddressFamily := none, freshPort := 50000 })
        1 0
        (Reachable.init (.ip4 (.v4 0x01010101)) 49152 65535 0)
        (Nat.le_refl 0))
      (Nat.le_refl 0)
  exact relay_bound_channels_unexpired exRelayTrace2 0 hreach 1 0x4000
    { expiry := 600, peerAddress := IpAddr.v4 0x0A000001, allocation := 50000,
      bound := true }
    (by decide)

end Relay

/-! ## The client policy engine

Embedding of ClientState (src/rust/connlib/tunnel/src/client.rs).
Times are in milliseconds.  The snownet node and the peer store live in
crates whose sources are absent from the snapshot; they are modelled by
their interfaces (an encapsulation oracle plus a pending-event queue,
and the two lookup views of the peer store).  Domain names are lists of
label identifiers. -/

namespace Client

abbrev ResourceId := Nat
abbrev GatewayId := Nat

/-- IPV4_RESOURCES: 100.96.0.0/11 (proxy-IP pool). -/
def ipv4Resources : IpNetwork :=
  { isV4 := true, addr := 100 * 2 ^ 24 + 96 * 2 ^ 16, prefixLen := 11 }

/-- IPV6_RESOURCES: fd00:2021:1111:8000::/107. -/
def ipv6Resources : IpNetwork :=
  { isV4 := false,
    addr := 0xfd00 * 2 ^ 112 + 0x2021 * 2 ^ 96 + 0x1111 * 2 ^ 80 + 0x8000 * 2 ^ 64,
    prefixLen := 107 }

/-- DNS_SENTINELS_V4: 100.100.111.0/24. -/
def dnsSentinelsV4 : IpNetwork :=
  { isV4 := true, addr := 100 * 2 ^ 24 + 100 * 2 ^ 16 + 111 * 2 ^ 8, prefixLen := 24 }

/-- DNS_SENTINELS_V6: fd00:2021:1111:8000:100:100:111:0/120. -/
def dnsSentinelsV6 : IpNetwork :=
  { isV4 := false,
    addr := 0xfd00 * 2 ^ 112 + 0x2021 * 2 ^ 96 + 0x1111 * 2 ^ 80 + 0x8000 * 2 ^ 64 +
      0x100 * 2 ^ 48 + 0x100 * 2 ^ 32 + 0x111 * 2 ^ 16,
    prefixLen := 120 }

/-- DNS_REFRESH_INTERVAL: 300 s, in milliseconds. -/
def dnsRefreshInterval : Nat := 300000

inductive Rtype where
  | a
  | aaaa
  | ptr
  | other
deriving DecidableEq

/-- The single question of a DNS query: name labels, query type and (for
PTR queries) the reverse-decoded address. -/
structure DnsQuestion where
  qname : List Nat
  qtype : Rtype
  ptrTarget : Option IpAddr
deriving DecidableEq

/-- The slice of an IP packet the client routing logic inspects. -/
structure Packet where
  src : IpAddr
  dst : IpAddr
  dstPort : Option Nat
  dns : Option DnsQuestion
deriving DecidableEq

structure Transmit where
  payload : Packet
deriving DecidableEq

/-- DnsResource: a resource id pinned to a concrete queried name. -/
structure DnsResource where
  id : ResourceId
  address : List Nat
deriving DecidableEq

/-- DnsQuery: a query to forward to the upstream resolver that owns the
sentinel it was sent to. -/
structure DnsQuery where
  name : List Nat
  recordType : Rtype
  packet : Packet
deriving DecidableEq

/-- The events ClientState buffers (client.rs Event). -/
inductive Event where
  | signalIceCandidate (connId : GatewayId) (candidate : Nat)
  | connectionIntent (resource : ResourceId) (connectedGatewayIds : List GatewayId)
  | refreshResources (connections : List (ResourceId × GatewayId × Option (List Nat)))
  | refreshInterfance
deriving DecidableEq

/-- The snownet events ClientState::handle_timeout drains. -/
inductive SnownetEvent where
  | connectionFailed (id : GatewayId)
  | signalIceCandidate (connection : GatewayId) (candidate : Nat)
  | other
deriving DecidableEq

/-- Modelled from the spec: a peer on the client (peer.rs is not in the
snapshot) is its connection id plus the packet transform (proxy-IP to
real-IP rewrite), kept abstract. -/
structure ClientPeer where
  connId : GatewayId
  transform : Packet → Option Packet

/-- Modelled from the spec: the peer store (peer_store.rs is not in the
snapshot) indexes peers by IP and by connection id; both views are kept
abstract. -/
structure PeerStore where
  byIp : IpAddr → Option ClientPeer
  byId : GatewayId → Bool

/-- The snownet ClientNode, abstracted to the interface ClientState
uses here: an encapsulation oracle and the queue of pending events. -/
structure NodeModel where
  encap : GatewayId → Packet → Option Transmit
  pendingEvents : List SnownetEvent

structure AwaitingConnectionDetails where
  domain : Option (List Nat)
  gateways : List GatewayId
  lastIntentSentAt : Nat

/-- ClientState (client.rs), restricted to the fields the claims touch.
dnsMapping is the sentinel-to-upstream bijection (only the left-to-right
view is needed); interface_config and the ip provider are external to
the routing logic modelled here. -/
structure ClientState where
  awaitingConnection : List (ResourceId × AwaitingConnectionDetails)
  resourcesGateways : List (ResourceId × GatewayId)
  dnsResourcesInternalIps : List (DnsResource × List IpAddr)
  dnsResources : List (List Nat × ResourceId)
  cidrResources : List (IpNetwork × ResourceId)
  deferredDnsQueries : List ((DnsResource × Rtype) × Packet)
  peers : PeerStore
  node : NodeModel
  dnsMapping : List (IpAddr × IpAddr)
  bufferedEvents : List Event
  bufferedPackets : List Packet
  bufferedDnsQueries : List DnsQuery
  nextDnsRefresh : Option Nat
  nextSystemResolverRefresh : Option Nat
  systemResolvers : List IpAddr

/-- is_definitely_not_a_resource (client.rs): exactly the IGMP multicast
address 224.0.0.22 and the all-routers multicast address ff02::2. -/
def isDefinitelyNotAResource : IpAddr → Bool
  | .v4 b => decide (b = 224 * 2 ^ 24 + 22)
  | .v6 b => decide (b = 0xFF02 * 2 ^ 112 + 2)

/-- Longest-prefix match in the CIDR table (ip_network_table). -/
def longestMatch (table : List (IpNetwork × ResourceId)) (ip : IpAddr) :
    Option (IpNetwork × ResourceId) :=
  table.foldl
    (fun best entry =>
      if entry.1.containsAddr ip then
        match best with
        | none => some entry
        | some b => if b.1.prefixLen < entry.1.prefixLen then some entry else some b
      else best)
    none

/-- get_cidr_resource_by_destination. -/
def getCidrResourceByDestination (s : ClientState) (destination : IpAddr) :
    Option ResourceId :=
  (longestMatch s.cidrResources destination).map (fun e => e.2)

/-- The non-empty suffixes of a label list, longest first
(iter_suffixes). -/
def labelSuffixes : List Nat → List (List Nat)
  | [] => []
  | a :: rest => (a :: rest) :: labelSuffixes rest

/-- Match a queried name against the DNS-resource patterns: the first
suffix present in the table wins (resource_from_question). -/
def matchDnsResource (resources : List (List Nat × ResourceId)) (qname : List Nat) :
    Option ResourceId :=
  (labelSuffixes qname).findSome? (fun sfx => lookupKey resources sfx)

/-- The locally synthesized DNS answer, as a packet with source and
destination swapped (payload construction is a wire-format concern
external to the routing logic). -/
def mkDnsResponsePacket (p : Packet) : Packet :=
  { p with src := p.dst, dst := p.src }

/-- Reverse lookup of a proxy IP in the internal-IP table (get_by_ip). -/
def getResourceByIp (internalIps : List (DnsResource × List IpAddr)) (ip : IpAddr) :
    Option DnsResource :=
  (internalIps.find? (fun e => e.2.contains ip)).map (fun e => e.1)

/-- The three resolve strategies of the dns parser used by client.rs. -/
inductive ResolveStrategy where
  | localResponse (response : Packet)
  | forwardQuery (query : DnsQuery)
  | deferredResponse (resource : DnsResource) (qtype : Rtype)
deriving DecidableEq

/-- Modelled from the spec: the three-variant dns::parse that client.rs
calls (the dns.rs in the snapshot is an earlier two-variant version
with a different signature).  A packet is a DNS query iff its
destination is a configured sentinel (a key of the mapping) and it is a
query to port 53.  A or AAAA queries matching a DNS resource are
answered locally when proxy IPs are already pinned and deferred
otherwise; PTR queries for proxy-pool addresses are answered locally;
everything else is forwarded to the upstream resolver of the sentinel. -/
def dnsParse (dnsResources : List (List Nat × ResourceId))
    (internalIps : List (DnsResource × List IpAddr))
    (mapping : List (IpAddr × IpAddr)) (p : Packet) : Option ResolveStrategy :=
  if (lookupKey mapping p.dst).isNone then none
  else if p.dstPort ≠ some 53 then none
  else
    match p.dns with
    | none => none
    | some q =>
        match q.qtype with
        | .a =>
            match matchDnsResource dnsResources q.qname with
            | some rid =>
                if (lookupKey internalIps { id := rid, address := q.qname }).isSome then
                  some (.localResponse (mkDnsResponsePacket p))
                else some (.deferredResponse { id := rid, address := q.qname } q.qtype)
            | none =>
                some (.forwardQuery { name := q.qname, recordType := q.qtype, packet := p })
        | .aaaa =>
            match matchDnsResource dnsResources q.qname with
            | some rid =>
                if (lookupKey internalIps { id := rid, address := q.qname }).isSome then
                  some (.localResponse (mkDnsResponsePacket p))
                else some (.deferredResponse { id := rid, address := q.qname } q.qtype)
            | none =>
                some (.forwardQuery { name := q.qname, recordType := q.qtype, packet := p })
        | .ptr =>
            match q.ptrTarget with
            | some ip =>
                match getResourceByIp internalIps ip with
                | some _ => some (.localResponse (mkDnsResponsePacket p))
                | none =>
                    some (.forwardQuery { name := q.qname, recordType := q.qtype, packet := p })
            | none =>
                some (.forwardQuery { name := q.qname, recordType := q.qtype, packet := p })
        | .other =>
            some (.forwardQuery { name := q.qname, recordType := q.qtype, packet := p })

/-- on_connection_intent_to_resource (client.rs): rate-limited to one
ConnectionIntent per 2 s per resource while it awaits connection. -/
def onConnectionIntentToResource (s : ClientState) (resource : ResourceId)
    (domain : Option (List Nat)) (now : Nat) : ClientState :=
  let gateways := s.resourcesGateways.map Prod.snd
  match lookupKey s.awaitingConnection resource with
  | some occupied =>
      if now - occupied.lastIntentSentAt < 2000 then s
      else
        { s with
          awaitingConnection := insertKey s.awaitingConnection resource
            { occupied with lastIntentSentAt := now }
          bufferedEvents := s.bufferedEvents ++
            [Event.connectionIntent resource gateways] }
  | none =>
      { s with
        awaitingConnection := insertKey s.awaitingConnection resource
          { domain := domain, gateways := gateways, lastIntentSentAt := now }
        bufferedEvents := s.bufferedEvents ++
          [Event.connectionIntent resource gateways] }

/-- on_connection_intent_dns. -/
def onConnectionIntentDns (s : ClientState) (resource : DnsResource) (now : Nat) :
    ClientState :=
  onConnectionIntentToResource s resource.id (some resource.address) now

/-- on_connection_intent_ip. -/
def onConnectionIntentIp (s : ClientState) (destination : IpAddr) (now : Nat) :
    ClientState :=
  if isDefinitelyNotAResource destination then s
  else
    match getCidrResourceByDestination s destination with
    | some resourceId => onConnectionIntentToResource s resourceId none now
    | none =>
        match s.dnsResourcesInternalIps.find? (fun e => e.2.contains destination) with
        | some e => onConnectionIntentDns s e.1 now
        | none => s

/-- handle_dns (client.rs): Sum.inl is the Ok case (a DNS query, with an
optional local response), Sum.inr the Err case (not handled as DNS; the
packet continues to peer routing with the given destination). -/
def handleDns (s : ClientState) (packet : Packet) (now : Nat) :
    Sum (ClientState × Option Packet) (ClientState × Packet × IpAddr) :=
  match dnsParse s.dnsResources s.dnsResourcesInternalIps s.dnsMapping packet with
  | some (.localResponse response) => .inl (s, some response)
  | some (.forwardQuery query) =>
      match lookupKey s.dnsMapping query.packet.dst with
      | some upstreamDns =>
          if (longestMatch s.cidrResources upstreamDns).isSome then
            .inr (s, packet, upstreamDns)
          else
            .inl ({ s with bufferedDnsQueries := s.bufferedDnsQueries ++ [query] }, none)
      | none =>
          .inl ({ s with bufferedDnsQueries := s.bufferedDnsQueries ++ [query] }, none)
  | some (.deferredResponse resource qtype) =>
      let s1 := onConnectionIntentDns s resource now
      .inl ({ s1 with
              deferredDnsQueries :=
                insertKey s1.deferredDnsQueries (resource, qtype) packet },
        none)
  | none => .inr (s, packet, packet.dst)

/-- ClientState::encapsulate (client.rs): DNS fast path, then peer
lookup, transform and snownet encapsulation. -/
def ClientState.encapsulate (s : ClientState) (packet : Packet) (now : Nat) :
    ClientState × Option Transmit :=
  match handleDns s packet now with
  | .inl (s1, response) =>
      match response with
      | some r => ({ s1 with bufferedPackets := s1.bufferedPackets ++ [r] }, none)
      | none => (s1, none)
  | .inr (s1, pkt, dest) =>
      match s1.peers.byIp dest with
      | none => (onConnectionIntentIp s1 dest now, none)
      | some peer =>
          match peer.transform pkt with
          | none => (s1, none)
          | some transformed =>
              match s1.node.encap peer.connId transformed with
              | none => (s1, none)
              | some t => (s1, some t)

/-- dns_updated (client.rs): set comparison, ignoring order and
multiplicity. -/
def dnsUpdated (oldDns newDns : List IpAddr) : Bool :=
  !(oldDns.all (fun ip => decide (ip ∈ newDns)) &&
    newDns.all (fun ip => decide (ip ∈ oldDns)))

/-- ClientState::update_system_resolvers: no-op when the resolver set is
unchanged, otherwise arm the 500 ms debounce and store the new list. -/
def ClientState.updateSystemResolvers (s : ClientState) (newDns : List IpAddr)
    (now : Nat) : ClientState :=
  if !dnsUpdated s.systemResolvers newDns then s
  else
    { s with
      nextSystemResolverRefresh := some (now + 500)
      systemResolvers := newDns }

/-- cleanup_connected_gateway (client.rs). -/
def cleanupConnectedGateway (s : ClientState) (gatewayId : GatewayId) : ClientState :=
  { s with
    peers :=
      { byIp := fun ip =>
          match s.peers.byIp ip with
          | some p => if p.connId = gatewayId then none else some p
          | none => none
        byId := fun g => if g = gatewayId then false else s.peers.byId g }
    dnsResourcesInternalIps :=
      s.dnsResourcesInternalIps.filter fun e =>
        match lookupKey s.resourcesGateways e.1.id with
        | some g => if g = gatewayId then false else true
        | none => true }

/-- The ReuseConnection list for the periodic DNS refresh event. -/
def dnsRefreshConnections (s : ClientState) :
    List (ResourceId × GatewayId × Option (List Nat)) :=
  s.dnsResourcesInternalIps.filterMap fun e =>
    match lookupKey s.resourcesGateways e.1.id with
    | none => none
    | some g =>
        if s.peers.byId g then some (e.1.id, g, some e.1.address) else none

/-- One snownet event, as processed by the poll_event loop at the end of
handle_timeout: failed connections clean up the gateway, ICE candidates
become SignalIceCandidate events, everything else is ignored. -/
def nodeEventStep (st : ClientState) (e : SnownetEvent) : ClientState :=
  match e with
  | .connectionFailed id => cleanupConnectedGateway st id
  | .signalIceCandidate connection candidate =>
      { st with bufferedEvents := st.bufferedEvents ++
          [Event.signalIceCandidate connection candidate] }
  | .other => st

/-- Draining the snownet event queue. -/
def drainNodeEvents (s : ClientState) : ClientState :=
  s.node.pendingEvents.foldl nodeEventStep
    { s with node := { s.node with pendingEvents := [] } }

/-- The periodic DNS-refresh stage of ClientState::handle_timeout. -/
def dnsRefreshStep (s : ClientState) (now : Nat) : ClientState :=
  match s.nextDnsRefresh with
  | some nextDnsRefresh =>
      if now ≥ nextDnsRefresh then
        { s with
          bufferedEvents := s.bufferedEvents ++
            [Event.refreshResources (dnsRefreshConnections s)]
          nextDnsRefresh := some (now + dnsRefreshInterval) }
      else s
  | none => { s with nextDnsRefresh := some (now + dnsRefreshInterval) }

/-- is_some_and(|e| now >= e) on the debounce deadline. -/
def resolverRefreshDue (s : ClientState) (now : Nat) : Bool :=
  match s.nextSystemResolverRefresh with
  | some e => decide (now ≥ e)
  | none => false

/-- The debounced system-resolver stage of ClientState::handle_timeout. -/
def resolverRefreshStep (s : ClientState) (now : Nat) : ClientState :=
  if resolverRefreshDue s now then
    { s with
      bufferedEvents := s.bufferedEvents ++ [Event.refreshInterfance]
      nextSystemResolverRefresh := none }
  else s

/-- ClientState::handle_timeout: fire the periodic DNS refresh, fire the
debounced system-resolver refresh, then drain snownet events (snownet's
own handle_timeout and the per-peer dns-track expiry are internal to
components not modelled here). -/
def ClientState.handleTimeout (s : ClientState) (now : Nat) : ClientState :=
  drainNodeEvents (resolverRefreshStep (dnsRefreshStep s now) now)

/-- The number of interface-refresh events in a buffer. -/
def countRefreshInterfance (es : List Event) : Nat :=
  es.countP fun e =>
    match e with
    | .refreshInterfance => true
    | _ => false

theorem countRefreshInterfance_append (a b : List Event) :
    countRefreshInterfance (a ++ b) =
      countRefreshInterfance a + countRefreshInterfance b := by
  unfold countRefreshInterfance
  exact List.countP_append _ _ _

theorem dnsUpdated_self (x : List IpAddr) : dnsUpdated x x = false := by
  simp [dnsUpdated, List.all_eq_true]

theorem nodeEventStep_fields (st : ClientState) (e : SnownetEvent) :
    (nodeEventStep st e).systemResolvers = st.systemResolvers ∧
    (nodeEventStep st e).nextSystemResolverRefresh = st.nextSystemResolverRefresh ∧
    (nodeEventStep st e).nextDnsRefresh = st.nextDnsRefresh ∧
    (nodeEventStep st e).node = st.node ∧
    countRefreshInterfance (nodeEventStep st e).bufferedEvents =
      countRefreshInterfance st.bufferedEvents := by
  cases e with
  | connectionFailed id => exact ⟨rfl, rfl, rfl, rfl, rfl⟩
  | signalIceCandidate connection candidate =>
      refine ⟨rfl, rfl, rfl, rfl, ?_⟩
      simp [countRefreshInterfance_append, countRefreshInterfance, nodeEventStep]
  | other => exact ⟨rfl, rfl, rfl, rfl, rfl⟩

theorem foldl_nodeEventStep_fields (evs : List SnownetEvent) :
    ∀ st : ClientState,
      (evs.foldl nodeEventStep st).systemResolvers = st.systemResolvers ∧
      (evs.foldl nodeEventStep st).nextSystemResolverRefresh =
        st.nextSystemResolverRefresh ∧
      (evs.foldl nodeEventStep st).nextDnsRefresh = st.nextDnsRefresh ∧
      (evs.foldl nodeEventStep st).node = st.node ∧
      countRefreshInterfance (evs.foldl nodeEventStep st).bufferedEvents =
        countRefreshInterfance st.bufferedEvents := by
  induction evs with
  | nil => intro st; exact ⟨rfl, rfl, rfl, rfl, rfl⟩
  | cons hd tl ih =>
      intro st
      obtain ⟨h1, h2, h3, h4, h5⟩ := ih (nodeEventStep st hd)
      obtain ⟨g1, g2, g3, g4, g5⟩ := nodeEventStep_fields st hd
      rw [List.foldl_cons]
      exact ⟨h1.trans g1, h2.trans g2, h3.trans g3, h4.trans g4, h5.trans g5⟩

theorem drainNodeEvents_fields (s : ClientState) :
    (drainNodeEvents s).systemResolvers = s.systemResolvers ∧
    (drainNodeEvents s).nextSystemResolverRefresh = s.nextSystemResolverRefresh ∧
    (drainNodeEvents s).node.pendingEvents = [] ∧
    countRefreshInterfance (drainNodeEvents s).bufferedEvents =
      countRefreshInterfance s.bufferedEvents := by
  unfold drainNodeEvents
  obtain ⟨h1, h2, _, h4, h5⟩ :=
    foldl_nodeEventStep_fields s.node.pendingEvents
      { s with node := { s.node with pendingEvents := [] } }
  exact ⟨h1, h2, by rw [h4], h5⟩

theorem dnsRefreshStep_fields (s : ClientState) (now : Nat) :
    (dnsRefreshStep s now).systemResolvers = s.systemResolvers ∧
    (dnsRefreshStep s now).nextSystemResolverRefresh = s.nextSystemResolverRefresh ∧
    (dnsRefreshStep s now).node = s.node ∧
    countRefreshInterfance (dnsRefreshStep s now).bufferedEvents =
      countRefreshInterfance s.bufferedEvents := by
  unfold dnsRefreshStep
  rcases hdr : s.nextDnsRefresh with _ | t
  · simp [hdr]
  · simp only [hdr]
    by_cases h : now ≥ t
    · rw [if_pos h]
      refine ⟨rfl, rfl, rfl, ?_⟩
      simp [countRefreshInterfance_append, countRefreshInterfance]
    · rw [if_neg h]
      exact ⟨rfl, rfl, rfl, rfl⟩

theorem resolverRefreshStep_fields (s : ClientState) (now : Nat) :
    (resolverRefreshStep s now).systemResolvers = s.systemResolvers ∧
    (resolverRefreshStep s now).nextSystemResolverRefresh =
      (if resolverRefreshDue s now then none else s.nextSystemResolverRefresh) ∧
    (resolverRefreshStep s now).node = s.node ∧
    countRefreshInterfance (resolverRefreshStep s now).bufferedEvents =
      countRefreshInterfance s.bufferedEvents +
        (if resolverRefreshDue s now then 1 else 0) := by
  unfold resolverRefreshStep
  by_cases h : resolverRefreshDue s now = true
  · rw [if_pos h, if_pos h, if_pos h]
    refine ⟨rfl, rfl, rfl, ?_⟩
    simp [countRefreshInterfance_append, countRefreshInterfance]
  · rw [if_neg h, if_neg h, if_neg h]
    exact ⟨rfl, rfl, rfl, by simp⟩

/-- Summary of ClientState::handle_timeout on the fields the resolver
debounce involves. -/
theorem handleTimeout_resolver_fields (s : ClientState) (now : Nat) :
    (s.handleTimeout now).systemResolvers = s.systemResolvers ∧
    (s.handleTimeout now).nextSystemResolverRefresh =
      (if resolverRefreshDue s now then none else s.nextSystemResolverRefresh) ∧
    countRefreshInterfance (s.handleTimeout now).bufferedEvents =
      countRefreshInterfance s.bufferedEvents +
        (if resolverRefreshDue s now then 1 else 0) := by
  unfold ClientState.handleTimeout
  obtain ⟨d1, d2, d3, d4⟩ := drainNodeEvents_fields
    (resolverRefreshStep (dnsRefreshStep s now) now)
  obtain ⟨r1, r2, r3, r4⟩ := resolverRefreshStep_fields (dnsRefreshStep s now) now
  obtain ⟨q1, q2, q3, q4⟩ := dnsRefreshStep_fields s now
  have hdue : resolverRefreshDue (dnsRefreshStep s now) now = resolverRefreshDue s now := by
    unfold resolverRefreshDue
    rw [q2]
  constructor
  · rw [d1, r1, q1]
  constructor
  · rw [d2, r2, hdue, q2]
  · rw [d4, r4, hdue, q4]

/-- C7: update_system_resolvers is idempotent up to reordering: an
update with an order-permuted copy of the stored resolvers is a no-op,
and two updates with the same list, each followed by a handle_timeout at
or after the 500 ms debounce deadline, emit exactly one interface
refresh event in total. -/
theorem client_update_system_resolvers_idempotent (s : ClientState)
    (x y : List IpAddr) (now t1 t2 : Nat)
    (hchange : dnsUpdated s.systemResolvers x = true)
    (hsame : dnsUpdated s.systemResolvers y = false)
    (hdebounce : now + 500 ≤ t1) :
    s.updateSystemResolvers y now = s ∧
    countRefreshInterfance
        ((((s.updateSystemResolvers x now).handleTimeout t1).updateSystemResolvers
            x t1).handleTimeout t2).bufferedEvents
      = countRefreshInterfance s.bufferedEvents + 1 := by
  constructor
  · unfold ClientState.updateSystemResolvers
    rw [hsame]
    rfl
  · have hu1 : s.updateSystemResolvers x now =
        { s with nextSystemResolverRefresh := some (now + 500), systemResolvers := x } := by
      unfold ClientState.updateSystemResolvers
      rw [hchange]
      rfl
    set u1 : ClientState :=
      { s with nextSystemResolverRefresh := some (now + 500), systemResolvers := x } with hu1def
    rw [hu1]
    obtain ⟨f1, f2, f3⟩ := handleTimeout_resolver_fields u1 t1
    have hdue1 : resolverRefreshDue u1 t1 = true := by
      unfold resolverRefreshDue
      simp [hu1def]
      omega
    have hnoop : (u1.handleTimeout t1).updateSystemResolvers x t1 = u1.handleTimeout t1 := by
      unfold ClientState.updateSystemResolvers
      rw [f1]
      have : u1.systemResolvers = x := by rw [hu1def]
      rw [this, dnsUpdated_self]
      rfl
    rw [hnoop]
    obtain ⟨g1, g2, g3⟩ := handleTimeout_resolver_fields (u1.handleTimeout t1) t2
    have hdue2 : resolverRefreshDue (u1.handleTimeout t1) t2 = false := by
      unfold resolverRefreshDue
      rw [f2, hdue1]
      simp
    rw [g3, hdue2, f3, hdue1]
    simp [hu1def]

/-- C6: while a resource awaits connection and the previous intent for
it was sent less than 2 s ago, a packet that would trigger a new intent
produces no event and no state change, and the packet is dropped
(encapsulate returns no transmit). -/
theorem client_connection_intent_rate_limited (s : ClientState) (p : Packet)
    (r : ResourceId) (d : AwaitingConnectionDetails) (dom : Option (List Nat))
    (now : Nat)
    (hawait : lookupKey s.awaitingConnection r = some d)
    (hrate : now - d.lastIntentSentAt < 2000)
    (hmap : lookupKey s.dnsMapping p.dst = none)
    (hpeer : s.peers.byIp p.dst = none)
    (hnotres : isDefinitelyNotAResource p.dst = false)
    (hcidr : getCidrResourceByDestination s p.dst = some r) :
    onConnectionIntentToResource s r dom now = s ∧
    s.encapsulate p now = (s, none) := by
  have hstate : ∀ dom2, onConnectionIntentToResource s r dom2 now = s := by
    intro dom2
    unfold onConnectionIntentToResource
    simp only [hawait]
    rw [if_pos hrate]
  refine ⟨hstate dom, ?_⟩
  have hparse : dnsParse s.dnsResources s.dnsResourcesInternalIps s.dnsMapping p = none := by
    unfold dnsParse
    simp [hmap]
  unfold ClientState.encapsulate handleDns
  simp only [hparse, hpeer]
  unfold onConnectionIntentIp
  rw [hnotres]
  simp only [hcidr, Bool.false_eq_true, if_false]
  rw [hstate none]

def emptyClientState : ClientState :=
  { awaitingConnection := []
    resourcesGateways := []
    dnsResourcesInternalIps := []
    dnsResources := []
    cidrResources := []
    deferredDnsQueries := []
    peers := { byIp := fun _ => none, byId := fun _ => false }
    node := { encap := fun _ _ => none, pendingEvents := [] }
    dnsMapping := []
    bufferedEvents := []
    bufferedPackets := []
    bufferedDnsQueries := []
    nextDnsRefresh := none
    nextSystemResolverRefresh := none
    systemResolvers := [] }

def c6State : ClientState :=
  { emptyClientState with
    awaitingConnection := [(5, { domain := none, gateways := [], lastIntentSentAt := 0 })]
    cidrResources := [({ isV4 := true, addr := 0x0A000000, prefixLen := 24 }, 5)] }

def c6Packet : Packet :=
  { src := IpAddr.v4 1, dst := IpAddr.v4 0x0A000001, dstPort := none, dns := none }

/-- Witness for C6: a packet for resource 5 at t = 1000 ms, with the
last intent sent at t = 0, changes nothing and is dropped. -/
theorem client_connection_intent_rate_limited_witness :
    onConnectionIntentToResource c6State 5 none 1000 = c6State ∧
    c6State.encapsulate c6Packet 1000 = (c6State, none) :=
  client_connection_intent_rate_limited c6State c6Packet 5
    { domain := none, gateways := [], lastIntentSentAt := 0 } none 1000
    rfl (by decide) rfl rfl (by decide) (by decide)

/-- Witness for C7: from a fresh state, updating the resolvers twice
with the same non-empty list and letting the debounce fire each time
emits exactly one interface-refresh event; updating with an equal set
is a no-op. -/
theorem client_update_system_resolvers_idempotent_witness :
    emptyClientState.updateSystemResolvers [] 0 = emptyClientState ∧
    countRefreshInterfance
        ((((emptyClientState.updateSystemResolvers [IpAddr.v4 0x01010101]
              0).handleTimeout 500).updateSystemResolvers [IpAddr.v4 0x01010101]
            500).handleTimeout 1000).bufferedEvents
      = countRefreshInterfance emptyClientState.bufferedEvents + 1 :=
  client_update_system_resolvers_idempotent emptyClientState
    [IpAddr.v4 0x01010101] [] 0 500 1000 (by decide) (by decide) (by decide)

def c8Packet : Packet :=
  { src := IpAddr.v4 1, dst := IpAddr.v4 (224 * 2 ^ 24 + 22), dstPort := none,
    dns := none }

def c8State : ClientState :=
  { emptyClientState with
    peers :=
      { byIp := fun ip =>
          if ip = IpAddr.v4 (224 * 2 ^ 24 + 22) then
            some { connId := 9, transform := fun pkt => some pkt }
          else none
        byId := fun _ => false }
    node := { encap := fun _ pkt => some { payload := pkt }, pendingEvents := [] } }

/-- C8 counterexample: the claim includes link-local addresses in the
definitely-not-a-resource classification and asserts an unconditional
silent drop; in the code, is_definitely_not_a_resource holds for
neither 169.254.0.1 nor fe80::1, and a packet to 224.0.0.22 is
encapsulated into a transmit when a peer covers that destination
(the peer lookup precedes the classification check). -/
theorem client_not_a_resource_counterexample :
    isDefinitelyNotAResource (IpAddr.v4 (169 * 2 ^ 24 + 254 * 2 ^ 16 + 1)) = false ∧
    isDefinitelyNotAResource (IpAddr.v6 (0xfe80 * 2 ^ 112 + 1)) = false ∧
    (c8State.encapsulate c8Packet 0).2 = some { payload := c8Packet } :=
  ⟨by decide, by decide, rfl⟩

/-- C8 (amended): encapsulate silently drops (no transmit, no event, no
state change) every packet whose destination is classified as
definitely-not-a-resource, provided no peer covers the destination and
it is not a configured sentinel; the classification holds for the IGMP
multicast address 224.0.0.22 and the all-routers multicast address
ff02::2 (and not for link-local addresses). -/
theorem client_not_a_resource_drop (s : ClientState) (p : Packet) (now : Nat)
    (hres : isDefinitelyNotAResource p.dst = true)
    (hmap : lookupKey s.dnsMapping p.dst = none)
    (hpeer : s.peers.byIp p.dst = none) :
    s.encapsulate p now = (s, none) ∧
    isDefinitelyNotAResource (IpAddr.v4 (224 * 2 ^ 24 + 22)) = true ∧
    isDefinitelyNotAResource (IpAddr.v6 (0xFF02 * 2 ^ 112 + 2)) = true := by
  refine ⟨?_, by decide, by decide⟩
  have hparse : dnsParse s.dnsResources s.dnsResourcesInternalIps s.dnsMapping p = none := by
    unfold dnsParse
    simp [hmap]
  unfold ClientState.encapsulate handleDns
  simp only [hparse, hpeer]
  unfold onConnectionIntentIp
  rw [hres]
  rfl

/-- Witness for C8 (amended): a multicast-destined packet in a fresh
state is dropped with no state change. -/
theorem client_not_a_resource_drop_witness :
    emptyClientState.encapsulate c8Packet 0 = (emptyClientState, none) ∧
    isDefinitelyNotAResource (IpAddr.v4 (224 * 2 ^ 24 + 22)) = true ∧
    isDefinitelyNotAResource (IpAddr.v6 (0xFF02 * 2 ^ 112 + 2)) = true :=
  client_not_a_resource_drop emptyClientState c8Packet 0 (by decide) rfl rfl

def c1SentinelBits : Nat := 100 * 2 ^ 24 + 100 * 2 ^ 16 + 111 * 2 ^ 8 + 1

def c1Packet : Packet :=
  { src := IpAddr.v4 0x6440000A, dst := IpAddr.v4 c1SentinelBits,
    dstPort := some 53,
    dns := some { qname := [10, 20], qtype := .a, ptrTarget := none } }

def c1State : ClientState :=
  { emptyClientState with
    dnsMapping := [(IpAddr.v4 c1SentinelBits, IpAddr.v4 0x0A000035)]
    cidrResources := [({ isV4 := true, addr := 0x0A000000, prefixLen := 24 }, 7)]
    peers :=
      { byIp := fun ip =>
          if ip = IpAddr.v4 0x0A000035 then
            some { connId := 9, transform := fun pkt => some pkt }
          else none
        byId := fun _ => false }
    node := { encap := fun _ pkt => some { payload := pkt }, pendingEvents := [] } }

/-- C1 counterexample: a DNS query to a sentinel address whose mapped
upstream resolver lies inside a CIDR resource is routed through the
tunnel and produces a snownet transmit (the edge case handled at
client.rs handle_dns, ForwardQuery branch). -/
theorem client_sentinel_dns_counterexample :
    dnsSentinelsV4.containsAddr c1Packet.dst = true ∧
    (c1State.encapsulate c1Packet 0).2 = some { payload := c1Packet } :=
  ⟨by decide, rfl⟩

/-- C1 (amended): a packet the client parses as a DNS query (destination
is a configured sentinel, port 53) never yields a snownet transmit
provided the sentinel's upstream resolver is not covered by a CIDR
resource: it is answered locally (pushed to the packet buffer),
enqueued as a forwarded DNS query, or recorded as a deferred query. -/
theorem client_sentinel_dns_no_transmit (s : ClientState) (p : Packet) (now : Nat)
    (strat : ResolveStrategy)
    (hparse : dnsParse s.dnsResources s.dnsResourcesInternalIps s.dnsMapping p =
      some strat)
    (hupstream : ∀ q u, strat = .forwardQuery q →
      lookupKey s.dnsMapping q.packet.dst = some u →
      longestMatch s.cidrResources u = none) :
    (s.encapsulate p now).2 = none ∧
    (∀ resp, strat = .localResponse resp →
      (s.encapsulate p now).1.bufferedPackets = s.bufferedPackets ++ [resp]) ∧
    (∀ q, strat = .forwardQuery q →
      (s.encapsulate p now).1.bufferedDnsQueries = s.bufferedDnsQueries ++ [q]) ∧
    (∀ res qt, strat = .deferredResponse res qt →
      lookupKey (s.encapsulate p now).1.deferredDnsQueries (res, qt) = some p) := by
  unfold ClientState.encapsulate handleDns
  simp only [hparse]
  cases strat with
  | localResponse resp =>
      refine ⟨rfl, ?_, ?_, ?_⟩
      · intro resp2 h
        cases h
        rfl
      · intro q h
        exact absurd h (by simp)
      · intro res qt h
        exact absurd h (by simp)
  | forwardQuery q =>
      rcases hup : lookupKey s.dnsMapping q.packet.dst with _ | u
      · simp only [hup]
        refine ⟨by trivial, ?_, ?_, ?_⟩
        · intro resp h
          exact absurd h (by simp)
        · intro q2 h
          cases h
          rfl
        · intro res qt h
          exact absurd h (by simp)
      · simp only [hup]
        have hlm : longestMatch s.cidrResources u = none := hupstream q u rfl hup
        rw [hlm]
        simp only [Option.isSome_none, Bool.false_eq_true, if_false]
        refine ⟨by trivial, ?_, ?_, ?_⟩
        · intro resp h
          exact absurd h (by simp)
        · intro q2 h
          cases h
          rfl
        · intro res qt h
          exact absurd h (by simp)
  | deferredResponse res qt =>
      refine ⟨rfl, ?_, ?_, ?_⟩
      · intro resp h
        exact absurd h (by simp)
      · intro q h
        exact absurd h (by simp)
      · intro res2 qt2 h
        cases h
        exact lookupKey_insertKey_self _ _ _

def c1FwdState : ClientState :=
  { emptyClientState with
    dnsMapping := [(IpAddr.v4 c1SentinelBits, IpAddr.v4 0x08080808)] }

/-- Witness for C1 (amended): a sentinel-destined query for an unknown
name, with the upstream resolver outside every CIDR resource, yields no
transmit and is enqueued for forwarding. -/
theorem client_sentinel_dns_no_transmit_witness :
    (c1FwdState.encapsulate c1Packet 0).2 = none ∧
    (c1FwdState.encapsulate c1Packet 0).1.bufferedDnsQueries =
      c1FwdState.bufferedDnsQueries ++
        [{ name := [10, 20], recordType := .a, packet := c1Packet }] := by
  have h := client_sentinel_dns_no_transmit c1FwdState c1Packet 0
    (.forwardQuery { name := [10, 20], recordType := .a, packet := c1Packet })
    (by decide) (fun q u hq hu => rfl)
  exact ⟨h.1, h.2.2.1 _ rfl⟩

end Client

/-! ## The gateway enforcement engine

Embedding of GatewayState (src/rust/connlib/tunnel/src/gateway.rs).
now is in milliseconds, utcNow is wall-clock milliseconds.  The
snownet ServerNode and ClientOnGateway (peer.rs is not in the snapshot)
are abstracted to the interface gateway.rs uses. -/

namespace Gateway

abbrev ResourceId := Nat
abbrev ClientId := Nat

/-- IPV4_PEERS: 100.64.0.0/11. -/
def ipv4Peers : IpNetwork :=
  { isV4 := true, addr := 100 * 2 ^ 24 + 64 * 2 ^ 16, prefixLen := 11 }

/-- IPV6_PEERS: fd00:2021:1111::/107. -/
def ipv6Peers : IpNetwork :=
  { isV4 := false,
    addr := 0xfd00 * 2 ^ 112 + 0x2021 * 2 ^ 96 + 0x1111 * 2 ^ 80,
    prefixLen := 107 }

/-- EXPIRE_RESOURCES_INTERVAL: 1 s, in milliseconds. -/
def expireResourcesInterval : Nat := 1000

/-- is_client (gateway.rs): the destination lies in a client tunnel
range. -/
def isClient (dst : IpAddr) : Bool :=
  match dst with
  | .v4 _ => ipv4Peers.containsAddr dst
  | .v6 _ => ipv6Peers.containsAddr dst

/-- An access-policy entry of a client's resource map; only expires_at
matters to the expiry claim (filters are enforced elsewhere). -/
structure AccessEntry where
  expiresAt : Option Nat
deriving DecidableEq

/-- Modelled from the spec: ClientOnGateway (peer.rs is not in the
snapshot) carries the per-client resource map; its packet transform
(tunnel-IP check, filters and DNS NAT) is kept abstract. -/
structure ClientOnGateway where
  clientId : ClientId
  resources : List (ResourceId × AccessEntry)
  transformEncap : Client.Packet → Nat → Option Client.Packet

/-- Modelled from the spec: ClientOnGateway::expire_resources removes
every access entry whose expires_at has been reached by utc_now. -/
def ClientOnGateway.expireResources (p : ClientOnGateway) (utcNow : Nat) :
    ClientOnGateway :=
  { p with
    resources := p.resources.filter fun e =>
      match e.2.expiresAt with
      | none => true
      | some t => decide (utcNow < t) }

/-- Modelled from the spec: ClientOnGateway::is_emptied — no resources
left. -/
def ClientOnGateway.isEmptied (p : ClientOnGateway) : Bool :=
  p.resources.isEmpty

structure EncryptedPacket where
  payload : Client.Packet
deriving DecidableEq

/-- GatewayState, restricted to the fields the claims touch.  The peer
store's by-ip view and the snownet encapsulation are oracles. -/
structure GatewayState where
  peers : List (ClientId × ClientOnGateway)
  peersByIp : IpAddr → Option ClientOnGateway
  nodeEncap : ClientId → Client.Packet → Option EncryptedPacket
  nextExpiryResourcesCheck : Option Nat

/-- GatewayState::encapsulate (gateway.rs): drop unless the destination
is a client tunnel address, then peer lookup, peer transform and
snownet encryption. -/
def GatewayState.encapsulate (s : GatewayState) (p : Client.Packet) (now : Nat) :
    Option EncryptedPacket :=
  if !isClient p.dst then none
  else
    match s.peersByIp p.dst with
    | none => none
    | some peer =>
        match peer.transformEncap p now with
        | none => none
        | some pkt => s.nodeEncap peer.clientId pkt

/-- GatewayState::handle_timeout (gateway.rs): when the (1 s periodic)
expiry check is due, expire per-client resources against utc_now, drop
emptied clients, and re-arm the check one second later (snownet's
handle_timeout and event drain touch no modelled field). -/
def GatewayState.handleTimeout (s : GatewayState) (now utcNow : Nat) : GatewayState :=
  match s.nextExpiryResourcesCheck with
  | some check =>
      if now ≥ check then
        { s with
          peers :=
            (s.peers.map fun e => (e.1, e.2.expireResources utcNow)).filter
              fun e => !e.2.isEmptied
          nextExpiryResourcesCheck := some (now + expireResourcesInterval) }
      else s
  | none => { s with nextExpiryResourcesCheck := some (now + expireResourcesInterval) }

/-- C9: when the periodic expiry check fires inside handle_timeout,
every access entry whose expires_at has been reached by utc_now is
removed, clients with an emptied resource set are removed entirely, and
the next check is scheduled exactly one second later. -/
theorem gateway_access_expiry (s : GatewayState) (now utcNow check : Nat)
    (hdue : s.nextExpiryResourcesCheck = some check)
    (hreached : check ≤ now) :
    (∀ cid p, (cid, p) ∈ (s.handleTimeout now utcNow).peers →
      ∀ rid e, (rid, e) ∈ p.resources →
        ∀ t, e.expiresAt = some t → utcNow < t) ∧
    (∀ cid p, (cid, p) ∈ (s.handleTimeout now utcNow).peers → p.resources ≠ []) ∧
    (s.handleTimeout now utcNow).nextExpiryResourcesCheck =
      some (now + expireResourcesInterval) := by
  unfold GatewayState.handleTimeout
  simp only [hdue]
  rw [if_pos (show now ≥ check by omega)]
  refine ⟨?_, ?_, rfl⟩
  · intro cid p hmem rid e hres t hexp
    rcases List.mem_filter.mp hmem with ⟨hmem2, _⟩
    rcases List.mem_map.mp hmem2 with ⟨q, _, hqe⟩
    have hp : p = q.2.expireResources utcNow := (congrArg Prod.snd hqe).symm
    rw [hp] at hres
    unfold ClientOnGateway.expireResources at hres
    rcases List.mem_filter.mp hres with ⟨_, hcond⟩
    simp only [hexp] at hcond
    exact of_decide_eq_true hcond
  · intro cid p hmem
    rcases List.mem_filter.mp hmem with ⟨_, hkeep⟩
    intro hnil
    unfold ClientOnGateway.isEmptied at hkeep
    rw [hnil] at hkeep
    simp at hkeep

def exGatewayState : GatewayState :=
  { peers :=
      [(5, { clientId := 5
             resources := [(1, { expiresAt := some 100 }), (2, { expiresAt := none })]
             transformEncap := fun _ _ => none })]
    peersByIp := fun _ => none
    nodeEncap := fun _ _ => none
    nextExpiryResourcesCheck := some 10 }

/-- Witness for C9: a due expiry check at now = 10 ms with utc_now = 100
removes the entry that expired at 100 and keeps the unexpired client. -/
theorem gateway_access_expiry_witness :
    (∀ cid p, (cid, p) ∈ (exGatewayState.handleTimeout 10 100).peers →
      ∀ rid e, (rid, e) ∈ p.resources →
        ∀ t, e.expiresAt = some t → 100 < t) ∧
    (∀ cid p, (cid, p) ∈ (exGatewayState.handleTimeout 10 100).peers →
      p.resources ≠ []) ∧
    (exGatewayState.handleTimeout 10 100).nextExpiryResourcesCheck =
      some (10 + expireResourcesInterval) :=
  gateway_access_expiry exGatewayState 10 100 10 rfl (Nat.le_refl 10)

/-- C10: GatewayState::encapsulate returns nothing for every packet
whose destination lies outside both client tunnel ranges 100.64.0.0/11
and fd00:2021:1111::/107, regardless of the peer store; hence only
destinations inside those ranges can produce an encrypted packet. -/
theorem gateway_encapsulate_requires_client_dst (s : GatewayState)
    (p : Client.Packet) (now : Nat)
    (h4 : ipv4Peers.containsAddr p.dst = false)
    (h6 : ipv6Peers.containsAddr p.dst = false) :
    s.encapsulate p now = none := by
  have hclient : isClient p.dst = false := by
    unfold isClient
    cases hd : p.dst with
    | v4 b => rw [hd] at h4; exact h4
    | v6 b => rw [hd] at h6; exact h6
  unfold GatewayState.encapsulate
  rw [hclient]
  simp

def exC10State : GatewayState :=
  { peers := []
    peersByIp := fun _ =>
      some { clientId := 1, resources := [], transformEncap := fun pkt _ => some pkt }
    nodeEncap := fun _ pkt => some { payload := pkt }
    nextExpiryResourcesCheck := none }

/-- Witness for C10: even with a peer store that matches every address
and an always-succeeding encryption oracle, a packet to 1.2.3.4 is
dropped. -/
theorem gateway_encapsulate_requires_client_dst_witness :
    exC10State.encapsulate
      { src := IpAddr.v4 1, dst := IpAddr.v4 0x01020304, dstPort := none,
        dns := none } 0 = none :=
  gateway_encapsulate_requires_client_dst exC10State
    { src := IpAddr.v4 1, dst := IpAddr.v4 0x01020304, dstPort := none, dns := none }
    0 (by decide) (by decide)

end Gateway

end CloudFire
